import Mathlib

/-!
Shallow embedding of three TFX source files and proofs about them:

* `tfx/orchestration/tfx_runner.py` — the `TfxRunner` base class:
  construction-time validation of the supported launcher classes and the
  per-component platform configs, and the greedy launcher lookup
  `find_component_launch_info`.
* `tfx/tools/cli/container_builder/buildspec.py` — the `BuildSpec`
  load-or-generate helper over an on-disk YAML file.
* `tfx/examples/custom_components/hello_world/hello_component/component.py` —
  the `HelloComponent` constructor and its output-channel defaulting.

Python machine state is made explicit: exceptions become an `Except PyErr`
result, the file system becomes a function from filename to optional parsed
file content, and Python dicts (which preserve insertion order) become
association lists.
-/

/-- The Python exception classes raised by the embedded code. -/
inductive PyErr where
  | valueError (msg : String)
  | typeError (msg : String)
  | runtimeError (msg : String)
deriving Repr, DecidableEq

/-! ## tfx_runner.py -/

/-- Executor specs are opaque to `TfxRunner`; only `can_launch` inspects them.
We embed them as strings. -/
abbrev ExecutorSpec : Type := String

/-- A platform config.  `TfxRunner._validate_platform_configs` only looks at
`type(platform_config)`, the concrete Python class of the config; we embed
that class as the `ctype` tag. -/
structure BasePlatformConfig where
  ctype : String
deriving Repr, DecidableEq

/-- A component launcher class.  `issubclassOfBase` embeds
`issubclass(cls, base_component_launcher.BaseComponentLauncher)` and
`can_launch` embeds the class method
`can_launch(executor_spec, platform_config)` (an external collaborator whose
body is not part of the excerpt, hence an arbitrary boolean function). -/
structure LauncherClass where
  issubclassOfBase : Bool
  can_launch : ExecutorSpec → Option BasePlatformConfig → Bool

/-- A component as seen by `TfxRunner.find_component_launch_info`: it exposes
`id` and `executor_spec` (in this TFX version, `component_id` is the same
identifier as `id`). -/
structure BaseComponent where
  id : String
  executor_spec : ExecutorSpec

/-- Lookup in an insertion-ordered association list, embedding
`component.id in self._platform_configs` / `self._platform_configs[...]`. -/
def assocLookup (m : List (String × List BasePlatformConfig)) (k : String) :
    Option (List BasePlatformConfig) :=
  match m with
  | [] => none
  | (k', v) :: rest => if k' = k then some v else assocLookup rest k

/-- The `TfxRunner` state after a successful `__init__`:
`_supported_launcher_classes` and `_platform_configs`. -/
structure TfxRunner where
  supported_launcher_classes : List LauncherClass
  platform_configs : List (String × List BasePlatformConfig)

/-- Python falsiness of an optional list: `None` and `[]` are falsy. -/
def optListFalsy : Option (List LauncherClass) → Bool
  | none => true
  | some [] => true
  | some (_ :: _) => false

/-- Embeds `TfxRunner._validate_supported_launcher_classes`.  The argument is
`Option` because `SUPPORTED_LAUNCHER_CLASSES` may be absent/None; both `None`
and `[]` are falsy in `if not self._supported_launcher_classes`. -/
def validateSupportedLauncherClasses (cls : Option (List LauncherClass)) :
    Except PyErr Unit :=
  if optListFalsy cls then
    .error (.valueError "component_launcher_classes must not be None or empty.")
  else if ((cls.getD []).any fun c => !c.issubclassOfBase) then
    .error (.typeError ("Each item in supported_launcher_classes must be type of "
      ++ "base_component_launcher.BaseComponentLauncher."))
  else
    .ok ()

/-- Embeds `TfxRunner._validate_platform_configs`: iterates the dict entries
in order; an empty component id raises `ValueError`, and so does a component
whose config list has fewer distinct concrete types than entries
(`len(set(types)) < len(list)`). -/
def validatePlatformConfigs :
    List (String × List BasePlatformConfig) → Except PyErr Unit
  | [] => .ok ()
  | (component_id, configs) :: rest =>
    if component_id = "" then
      .error (.valueError "component id cannot be empty in platform_configs.")
    else if (configs.map BasePlatformConfig.ctype).dedup.length < configs.length then
      .error (.valueError ("Component \"" ++ component_id
        ++ "\" has multiple platfrom configs with the same type."))
    else
      validatePlatformConfigs rest

/-- Embeds `TfxRunner.__init__`: `platform_configs or {}` defaults an absent
dict, then both validations run (launcher classes first). -/
def TfxRunner.init (launcher_classes : Option (List LauncherClass))
    (platform_configs : Option (List (String × List BasePlatformConfig))) :
    Except PyErr TfxRunner :=
  let pcs := platform_configs.getD []
  match validateSupportedLauncherClasses launcher_classes with
  | .error e => .error e
  | .ok _ =>
    match validatePlatformConfigs pcs with
    | .error e => .error e
    | .ok _ => .ok ⟨launcher_classes.getD [], pcs⟩

/-- The candidate platform-config list built at the top of
`find_component_launch_info`: `[None]`, prepended with the configs registered
for the component id when that key is present. -/
def TfxRunner.candidateConfigs (r : TfxRunner) (c : BaseComponent) :
    List (Option BasePlatformConfig) :=
  match assocLookup r.platform_configs c.id with
  | some cfgs => cfgs.map some ++ [none]
  | none => [none]

/-- The inner loop of `find_component_launch_info`: the first launcher class
(in list order) whose `can_launch` accepts the executor spec under `cfg`. -/
def findInLaunchers (spec : ExecutorSpec) (cfg : Option BasePlatformConfig) :
    List LauncherClass → Option LauncherClass
  | [] => none
  | cls :: rest =>
    if cls.can_launch spec cfg then some cls else findInLaunchers spec cfg rest

/-- The outer loop of `find_component_launch_info`: scans the candidate
configs in order, returning the first `(launcher_class, platform_config)`
pair accepted by `can_launch`. -/
def findInConfigs (launchers : List LauncherClass) (spec : ExecutorSpec) :
    List (Option BasePlatformConfig) →
    Option (LauncherClass × Option BasePlatformConfig)
  | [] => none
  | cfg :: rest =>
    match findInLaunchers spec cfg launchers with
    | some cls => some (cls, cfg)
    | none => findInConfigs launchers spec rest

/-- Embeds `TfxRunner.find_component_launch_info`: greedy nested-loop search,
raising `RuntimeError` naming the component when nothing matches. -/
def TfxRunner.find_component_launch_info (r : TfxRunner) (c : BaseComponent) :
    Except PyErr (LauncherClass × Option BasePlatformConfig) :=
  match findInConfigs r.supported_launcher_classes c.executor_spec
      (r.candidateConfigs c) with
  | some p => .ok p
  | none =>
    .error (.runtimeError ("No launcher can launch component \"" ++ c.id ++ "\"."))

/-! ## buildspec.py -/

/-- One entry of `build.artifacts` in a parsed build-spec YAML file:
`image`, `workspace` and `docker.dockerfile`. -/
structure Artifact where
  image : Option String
  workspace : String
  dockerfile : String
deriving Repr, DecidableEq

/-- A parsed build-spec YAML file.  `artifacts` is the list found under
`build.artifacts`; `apiVersion` and `kind` are the top-level fields written
by `_generate_default`. -/
structure BuildSpecFile where
  apiVersion : String
  kind : String
  artifacts : List Artifact
deriving Repr, DecidableEq

/-- Modelled from the spec: `commons.SKAFFOLD_API_VERSION` lives in the
`commons` module, which is not part of the excerpt; its exact value is
immaterial to every claim. -/
def SKAFFOLD_API_VERSION : String := "skaffold/v1beta2"

/-- The file system as seen by `BuildSpec`: maps a filename to the parsed
content of the file there, or `none` when `os.path.exists` is false. -/
abbrev FileSystem : Type := String → Option BuildSpecFile

/-- The `BuildSpec` object state after a successful `__init__`. -/
structure BuildSpecObj where
  filename : String
  build_context : String
  target_image : Option String
  buildspecContent : BuildSpecFile
deriving Repr, DecidableEq

/-- The message of the `TypeError` Python raises while evaluating the
ignored-target-image warning in `_read_existing_build_spec`: the format
string (three concatenated literals) holds two `%s` conversions but `%` is
applied to `self.target_image` alone, so formatting fails before
`click.echo` is even called (whose second positional argument, `file`, is
moreover given `self.filename`, a string). -/
def formatTypeErrorMsg : String := "not enough arguments for format string"

/-- Embeds `BuildSpec._read_existing_build_spec`, called on `self` with
`filename`, `target_image` already assigned.  In source order: the
ignored-target-image warning (which raises `TypeError`, see
`formatTypeErrorMsg`) when `target_image is not None`, then the
exactly-one-artifact check raising `RuntimeError`, then
`self.build_context = artifacts[0]['workspace']`. -/
def readExistingBuildSpec (filename : String) (target_image : Option String)
    (build_context : String) (file : BuildSpecFile) :
    Except PyErr BuildSpecObj :=
  match target_image with
  | some _ => .error (.typeError formatTypeErrorMsg)
  | none =>
    match file.artifacts with
    | [a] =>
      .ok { filename := filename
            build_context := a.workspace
            target_image := target_image
            buildspecContent := file }
    | _ =>
      .error (.runtimeError ("The build spec contains multiple artifacts however"
        ++ "only one is supported."))

/-- Embeds `BuildSpec._generate_default`: synthesize the default structure
with exactly one artifact from `self.target_image`, `self.build_context` and
`dockerfile_name`, and write it to `self.filename`. -/
def generateDefault (fs : FileSystem) (filename : String) (target_image : String)
    (build_context : String) (dockerfile_name : String) :
    BuildSpecObj × FileSystem :=
  let file : BuildSpecFile :=
    { apiVersion := SKAFFOLD_API_VERSION
      kind := "Config"
      artifacts := [{ image := some target_image
                      workspace := build_context
                      dockerfile := dockerfile_name }] }
  ({ filename := filename
     build_context := build_context
     target_image := some target_image
     buildspecContent := file },
   fun f => if f = filename then some file else fs f)

/-- Embeds `BuildSpec.__init__`: assign `filename`, `build_context`,
`target_image`; if the file exists, load it (leaving the file system
untouched); otherwise require a target image (`ValueError` when absent) and
generate the default file. -/
def BuildSpec.init (fs : FileSystem) (filename : String)
    (target_image : Option String) (build_context : String)
    (dockerfile_name : String) : Except PyErr (BuildSpecObj × FileSystem) :=
  match fs filename with
  | some file =>
    match readExistingBuildSpec filename target_image build_context file with
    | .error e => .error e
    | .ok obj => .ok (obj, fs)
  | none =>
    match target_image with
    | none =>
      .error (.valueError ("BuildSpec: target_image is not given and there is no "
        ++ "existing build spec file."))
    | some img => .ok (generateDefault fs filename img build_context dockerfile_name)

/-! ## hello_component/component.py -/

/-- Modelled from the spec: `standard_artifacts.Examples` (not in the
excerpt) is an artifact of the "Examples" artifact type carrying a named
split. -/
structure ExamplesArtifact where
  typeName : String
  split : String
deriving Repr, DecidableEq

/-- Modelled from the spec: the `standard_artifacts.Examples(split=...)`
constructor. -/
def Examples (split : String) : ExamplesArtifact := ⟨"Examples", split⟩

/-- Modelled from the spec: a channel is a typed handle to a list of
artifacts (`channel_utils.as_channel` wraps an artifact list; the channel
carries no data of its own). -/
structure Channel where
  artifacts : List ExamplesArtifact
deriving Repr, DecidableEq

/-- Modelled from the spec: `channel_utils.as_channel` mints a channel from
a list of artifacts. -/
def as_channel (arts : List ExamplesArtifact) : Channel := ⟨arts⟩

/-- The `HelloComponent` instance state: its bound input/output channels and
name, as held by its `HelloComponentSpec`. -/
structure HelloComponent where
  input_data : Option Channel
  output_data : Channel
  name : Option String
deriving Repr, DecidableEq

/-- Embeds `HelloComponent.__init__`: `output_data or as_channel([Examples
(split=s) for s in ['train', 'eval']])` (channel objects are truthy, so the
`or` falls through exactly when the argument is `None`), then the spec is
built from the bound channels and the name. -/
def HelloComponent.init (input_data : Option Channel)
    (output_data : Option Channel) (name : Option String) : HelloComponent :=
  let bound_output : Channel :=
    match output_data with
    | some c => c
    | none => as_channel (["train", "eval"].map Examples)
  { input_data := input_data, output_data := bound_output, name := name }

/-! ## Helper lemmas for the launcher search -/

/-- The spec-side candidate list, following the spec's words: the configs
registered for the component's id in declaration order followed by the
no-config sentinel, and within each candidate config the launcher classes in
preference order — flattened config-major into `(launcher, config)` pairs. -/
def launchCandidatesSpec (r : TfxRunner) (c : BaseComponent) :
    List (LauncherClass × Option BasePlatformConfig) :=
  (((assocLookup r.platform_configs c.id).getD []).map some ++ [none]).flatMap
    fun cfg => r.supported_launcher_classes.map fun cls => (cls, cfg)

lemma candidateConfigs_eq (r : TfxRunner) (c : BaseComponent) :
    r.candidateConfigs c =
      ((assocLookup r.platform_configs c.id).getD []).map some ++ [none] := by
  unfold TfxRunner.candidateConfigs
  cases assocLookup r.platform_configs c.id <;> rfl

lemma findInLaunchers_eq_find? (spec : ExecutorSpec)
    (cfg : Option BasePlatformConfig) (ls : List LauncherClass) :
    findInLaunchers spec cfg ls = ls.find? fun cls => cls.can_launch spec cfg := by
  induction ls with
  | nil => rfl
  | cons cls rest ih =>
    by_cases h : cls.can_launch spec cfg = true
    · simp [findInLaunchers, h]
    · simp [findInLaunchers, h, ih]

lemma findInConfigs_eq_find? (ls : List LauncherClass) (spec : ExecutorSpec)
    (cfgs : List (Option BasePlatformConfig)) :
    findInConfigs ls spec cfgs =
      (cfgs.flatMap fun cfg => ls.map fun cls => (cls, cfg)).find?
        fun p => p.1.can_launch spec p.2 := by
  induction cfgs with
  | nil => rfl
  | cons cfg rest ih =>
    rw [List.flatMap_cons, List.find?_append]
    rw [show (List.find? (fun p => p.1.can_launch spec p.2)
        (ls.map fun cls => (cls, cfg))) =
        (ls.find? fun cls => cls.can_launch spec cfg).map (fun cls => (cls, cfg))
      from List.find?_map _ ls]
    unfold findInConfigs
    rw [findInLaunchers_eq_find?, ← ih]
    cases ls.find? fun cls => cls.can_launch spec cfg <;> simp

lemma find_info_toOption (r : TfxRunner) (c : BaseComponent) :
    (r.find_component_launch_info c).toOption =
      (launchCandidatesSpec r c).find? fun p => p.1.can_launch c.executor_spec p.2 := by
  unfold TfxRunner.find_component_launch_info launchCandidatesSpec
  rw [findInConfigs_eq_find?, ← candidateConfigs_eq]
  cases h : ((r.candidateConfigs c).flatMap fun cfg =>
      r.supported_launcher_classes.map fun cls => (cls, cfg)).find?
      fun p => p.1.can_launch c.executor_spec p.2 <;>
    simp [Except.toOption]

lemma findInConfigs_eq_none_iff (ls : List LauncherClass) (spec : ExecutorSpec)
    (cfgs : List (Option BasePlatformConfig)) :
    findInConfigs ls spec cfgs = none ↔
      ∀ cfg ∈ cfgs, ∀ cls ∈ ls, cls.can_launch spec cfg = false := by
  rw [findInConfigs_eq_find?, List.find?_eq_none]
  constructor
  · intro h cfg hcfg cls hcls
    have := h (cls, cfg) (List.mem_flatMap.mpr ⟨cfg, hcfg, List.mem_map_of_mem _ hcls⟩)
    simpa using this
  · intro h p hp
    rcases List.mem_flatMap.mp hp with ⟨cfg, hcfg, hmem⟩
    rcases List.mem_map.mp hmem with ⟨cls, hcls, rfl⟩
    simpa using h cfg hcfg cls hcls

lemma find_info_error_iff (r : TfxRunner) (c : BaseComponent) :
    (∃ e, r.find_component_launch_info c = .error e) ↔
      ∀ cfg ∈ r.candidateConfigs c, ∀ cls ∈ r.supported_launcher_classes,
        cls.can_launch c.executor_spec cfg = false := by
  rw [← findInConfigs_eq_none_iff r.supported_launcher_classes c.executor_spec
    (r.candidateConfigs c)]
  unfold TfxRunner.find_component_launch_info
  cases h : findInConfigs r.supported_launcher_classes c.executor_spec
      (r.candidateConfigs c) <;> simp

lemma find_info_error_msg (r : TfxRunner) (c : BaseComponent) (e : PyErr)
    (h : r.find_component_launch_info c = .error e) :
    e = .runtimeError ("No launcher can launch component \"" ++ c.id ++ "\".") := by
  unfold TfxRunner.find_component_launch_info at h
  cases hf : findInConfigs r.supported_launcher_classes c.executor_spec
      (r.candidateConfigs c) <;> rw [hf] at h <;> simp at h
  exact h.symm

/-! ## Concrete runners used in the instance parts of the claims -/

/-- A launcher class whose `can_launch` rejects everything. -/
def cannotLauncher : LauncherClass := ⟨true, fun _ _ => false⟩

/-- A second always-rejecting launcher class, distinguishable by proofs only
through position in the preference list. -/
def cannotLauncher2 : LauncherClass := ⟨true, fun _ _ => false⟩

/-- A launcher class whose `can_launch` accepts everything. -/
def canAllLauncher : LauncherClass := ⟨true, fun _ _ => true⟩

/-- A launcher class that can launch only under the no-config sentinel. -/
def onlyNoConfigLauncher : LauncherClass := ⟨true, fun _ cfg => cfg.isNone⟩

/-- A component for the concrete scenarios. -/
def demoComponent : BaseComponent := ⟨"hello", "demo_executor"⟩

/-- A runner where only the 3rd launcher in preference order can launch. -/
def thirdLauncherRunner : TfxRunner :=
  ⟨[cannotLauncher, cannotLauncher2, canAllLauncher], []⟩

/-- Platform config of concrete type `A`. -/
def cfgA : BasePlatformConfig := ⟨"A"⟩

/-- Platform config of concrete type `B`. -/
def cfgB : BasePlatformConfig := ⟨"B"⟩

/-- A runner with configs `[A, B]` registered for `demoComponent` whose only
launcher can launch only under the unconfigured fallback. -/
def abFallbackRunner : TfxRunner :=
  ⟨[onlyNoConfigLauncher], [("hello", [cfgA, cfgB])]⟩

/-- Claim C1: `find_component_launch_info` is the deterministic greedy
first-match search over the candidate pairs ordered config-major (declared
configs in declaration order, then the `None` sentinel) and launcher-minor
(preference order): its result, when any, is exactly the first pair of
`launchCandidatesSpec` whose `can_launch` accepts the executor spec.  In
particular, when only the 3rd launcher in preference order can launch, that
launcher is returned, and when the declared configs `[A, B]` admit no
launcher but the `None` fallback does, the returned config is `None`. -/
theorem claim_C1_find_component_launch_info_first_match :
    (∀ (r : TfxRunner) (c : BaseComponent),
      (r.find_component_launch_info c).toOption =
        (launchCandidatesSpec r c).find?
          fun p => p.1.can_launch c.executor_spec p.2) ∧
    thirdLauncherRunner.find_component_launch_info demoComponent =
      .ok (canAllLauncher, none) ∧
    abFallbackRunner.find_component_launch_info demoComponent =
      .ok (onlyNoConfigLauncher, none) :=
  ⟨find_info_toOption, rfl, rfl⟩

/-- Claim C2: `find_component_launch_info` fails (with a `RuntimeError`) if
and only if no (launcher class, candidate platform config) combination can
launch the component's executor spec, and the error message names the
component's id. -/
theorem claim_C2_find_component_launch_info_error :
    ∀ (r : TfxRunner) (c : BaseComponent),
      ((∃ e, r.find_component_launch_info c = .error e) ↔
        ∀ cfg ∈ r.candidateConfigs c, ∀ cls ∈ r.supported_launcher_classes,
          cls.can_launch c.executor_spec cfg = false) ∧
      (∀ e, r.find_component_launch_info c = .error e →
        e = .runtimeError ("No launcher can launch component \""
          ++ c.id ++ "\".")) :=
  fun r c => ⟨find_info_error_iff r c, fun e h => find_info_error_msg r c e h⟩

/-- Witness for claim C2 at a concrete input: a runner whose single launcher
rejects everything fails on `demoComponent` with the `RuntimeError` naming
the component. -/
theorem claim_C2_witness :
    TfxRunner.find_component_launch_info ⟨[cannotLauncher], []⟩ demoComponent =
      .error (.runtimeError "No launcher can launch component \"hello\".") ∧
    PyErr.runtimeError "No launcher can launch component \"hello\"." =
      .runtimeError ("No launcher can launch component \""
        ++ demoComponent.id ++ "\".") :=
  ⟨rfl,
   (claim_C2_find_component_launch_info_error ⟨[cannotLauncher], []⟩
     demoComponent).2 _ rfl⟩

/-! ## Construction-time validation (claims C3 and C4) -/

/-- A launcher class that is not a subclass of `BaseComponentLauncher`. -/
def badLauncher : LauncherClass := ⟨false, fun _ _ => false⟩

/-- Claim C3: construction with an absent (`None`) or empty launcher-class
list fails with the `ValueError`, and construction where some entry of the
list is not a subclass of `BaseComponentLauncher` fails with the
`TypeError`. -/
theorem claim_C3_launcher_class_validation :
    (∀ pcs, TfxRunner.init none pcs =
      .error (.valueError "component_launcher_classes must not be None or empty.")) ∧
    (∀ pcs, TfxRunner.init (some []) pcs =
      .error (.valueError "component_launcher_classes must not be None or empty.")) ∧
    (∀ (L : List LauncherClass) pcs,
      (∃ cls ∈ L, cls.issubclassOfBase = false) →
      TfxRunner.init (some L) pcs =
        .error (.typeError ("Each item in supported_launcher_classes must be type of "
          ++ "base_component_launcher.BaseComponentLauncher."))) := by
  refine ⟨fun pcs => rfl, fun pcs => rfl, ?_⟩
  rintro L pcs ⟨cls, hmem, hbad⟩
  have hne : optListFalsy (some L) = false := by
    cases L with
    | nil => cases hmem
    | cons a t => rfl
  have hany : (L.any fun c => !c.issubclassOfBase) = true :=
    List.any_eq_true.mpr ⟨cls, hmem, by simp [hbad]⟩
  simp [TfxRunner.init, validateSupportedLauncherClasses, hne, hany]

/-- Witness for claim C3: a singleton list holding a non-subclass entry is
rejected with the `TypeError` at construction. -/
theorem claim_C3_witness :
    TfxRunner.init (some [badLauncher]) none =
      .error (.typeError ("Each item in supported_launcher_classes must be type of "
        ++ "base_component_launcher.BaseComponentLauncher.")) :=
  claim_C3_launcher_class_validation.2.2 [badLauncher] none
    ⟨badLauncher, List.mem_singleton.mpr rfl, rfl⟩

lemma dedup_length_lt_iff {α : Type} [DecidableEq α] (l : List α) :
    l.dedup.length < l.length ↔ ¬ l.Nodup := by
  constructor
  · intro h hnd
    rw [List.dedup_eq_self.mpr hnd] at h
    exact lt_irrefl _ h
  · intro h
    rcases Nat.lt_or_ge l.dedup.length l.length with h' | h'
    · exact h'
    · exact absurd (List.dedup_eq_self.mp ((List.dedup_sublist l).eq_of_length_le h')) h

lemma validatePlatformConfigs_ok_iff :
    ∀ M, validatePlatformConfigs M = .ok () ↔
      ∀ p ∈ M, p.1 ≠ "" ∧ (p.2.map BasePlatformConfig.ctype).Nodup
  | [] => by simp [validatePlatformConfigs]
  | (cid, cfgs) :: rest => by
    have hlen : (cfgs.map BasePlatformConfig.ctype).length = cfgs.length :=
      List.length_map _ _
    by_cases h1 : cid = ""
    · subst h1
      simp [validatePlatformConfigs]
    · by_cases h2 : (cfgs.map BasePlatformConfig.ctype).dedup.length < cfgs.length
      · have hnd : ¬ (cfgs.map BasePlatformConfig.ctype).Nodup := by
          rw [← dedup_length_lt_iff, hlen]
          exact h2
        simp [validatePlatformConfigs, h1, h2, hnd]
      · have hnd : (cfgs.map BasePlatformConfig.ctype).Nodup := by
          by_contra hc
          exact h2 (hlen ▸ (dedup_length_lt_iff _).mpr hc)
        simp [validatePlatformConfigs, h1, h2, hnd,
          validatePlatformConfigs_ok_iff rest]

lemma validatePlatformConfigs_error_valueError :
    ∀ M e, validatePlatformConfigs M = .error e → ∃ m, e = .valueError m
  | [], e => by
    intro h
    simp [validatePlatformConfigs] at h
  | (cid, cfgs) :: rest, e => by
    intro h
    by_cases h1 : cid = ""
    · simp [validatePlatformConfigs, h1] at h
      exact ⟨_, h.symm⟩
    · by_cases h2 : (cfgs.map BasePlatformConfig.ctype).dedup.length < cfgs.length
      · simp [validatePlatformConfigs, h1, h2] at h
        exact ⟨_, h.symm⟩
      · simp only [validatePlatformConfigs, h1, h2, if_false, if_neg] at h
        exact validatePlatformConfigs_error_valueError rest e h

/-- Claim C4: platform-config validation rejects (with a `ValueError`) any
map holding an empty component id, rejects (with a `ValueError`) any
component id whose attached configs repeat a concrete type, and passes
otherwise. -/
theorem claim_C4_platform_config_validation :
    ∀ M : List (String × List BasePlatformConfig),
      ((∃ p ∈ M, p.1 = "") →
        ∃ m, validatePlatformConfigs M = .error (.valueError m)) ∧
      ((∃ p ∈ M, ¬ (p.2.map BasePlatformConfig.ctype).Nodup) →
        ∃ m, validatePlatformConfigs M = .error (.valueError m)) ∧
      ((∀ p ∈ M, p.1 ≠ "" ∧ (p.2.map BasePlatformConfig.ctype).Nodup) →
        validatePlatformConfigs M = .ok ()) := by
  intro M
  have hok := validatePlatformConfigs_ok_iff M
  have herr : validatePlatformConfigs M ≠ .ok () →
      ∃ m, validatePlatformConfigs M = .error (.valueError m) := by
    intro hne
    cases hres : validatePlatformConfigs M with
    | ok u =>
      cases u
      exact absurd hres hne
    | error e =>
      rcases validatePlatformConfigs_error_valueError M e hres with ⟨m, rfl⟩
      exact ⟨m, rfl⟩
  refine ⟨?_, ?_, fun h => hok.mpr h⟩
  · rintro ⟨p, hp, hempty⟩
    exact herr fun hc => ((hok.mp hc) p hp).1 hempty
  · rintro ⟨p, hp, hnd⟩
    exact herr fun hc => hnd ((hok.mp hc) p hp).2

/-- Witness for claim C4: an empty component id and a duplicated config type
are each rejected, and a clean map passes. -/
theorem claim_C4_witness :
    (∃ m, validatePlatformConfigs [("", [])] = .error (.valueError m)) ∧
    (∃ m, validatePlatformConfigs [("comp", [cfgA, cfgA])] =
      .error (.valueError m)) ∧
    validatePlatformConfigs [("comp", [cfgA, cfgB])] = .ok () :=
  ⟨(claim_C4_platform_config_validation _).1 ⟨("", []), by simp, rfl⟩,
   (claim_C4_platform_config_validation _).2.1
     ⟨("comp", [cfgA, cfgA]), by simp, by decide⟩,
   (claim_C4_platform_config_validation _).2.2 (by decide)⟩

/-! ## BuildSpec claims -/

/-- A concrete single-artifact build-spec file used in witnesses. -/
def demoArtifact : Artifact := ⟨some "img", "ctx", "Dockerfile"⟩

/-- A concrete well-formed parsed build-spec file. -/
def demoFile : BuildSpecFile := ⟨SKAFFOLD_API_VERSION, "Config", [demoArtifact]⟩

/-- A file system holding `demoFile` at `build.yaml` and nothing else. -/
def demoFS : FileSystem := fun f => if f = "build.yaml" then some demoFile else none

/-- The empty file system: no path exists. -/
def fsEmpty : FileSystem := fun _ => none

/-- Claim C5: loading an existing file (with the defaulted `target_image =
None`) fails with a `RuntimeError` exactly when the number of entries under
`build.artifacts` is not one, and on the single-artifact success the loaded
`build_context` is that artifact's `workspace`. -/
theorem claim_C5_load_artifact_count :
    ∀ (fs : FileSystem) (fn : String) (file : BuildSpecFile) (bc dn : String),
      fs fn = some file →
      ((∃ m, BuildSpec.init fs fn none bc dn = .error (.runtimeError m)) ↔
        file.artifacts.length ≠ 1) ∧
      (∀ a, file.artifacts = [a] →
        ∃ obj, BuildSpec.init fs fn none bc dn = .ok (obj, fs) ∧
          obj.build_context = a.workspace) := by
  intro fs fn file bc dn h
  refine ⟨?_, ?_⟩
  · cases hart : file.artifacts with
    | nil => simp [BuildSpec.init, h, readExistingBuildSpec, hart]
    | cons a t =>
      cases t with
      | nil => simp [BuildSpec.init, h, readExistingBuildSpec, hart]
      | cons b t2 => simp [BuildSpec.init, h, readExistingBuildSpec, hart]
  · intro a ha
    refine ⟨⟨fn, a.workspace, none, file⟩, ?_, rfl⟩
    simp [BuildSpec.init, h, readExistingBuildSpec, ha]

/-- Witness for claim C5: loading `demoFS` succeeds and picks up the
workspace of its single artifact. -/
theorem claim_C5_witness :
    ∃ obj, BuildSpec.init demoFS "build.yaml" none "bc" "df" =
        .ok (obj, demoFS) ∧
      obj.build_context = demoArtifact.workspace :=
  (claim_C5_load_artifact_count demoFS "build.yaml" demoFile "bc" "df" rfl).2
    demoArtifact rfl

/-- Claim C6: with no file at the path, construction with `target_image =
None` fails with the `ValueError`, and with a target image a file is written
holding exactly one artifact carrying the supplied image, build context and
dockerfile name. -/
theorem claim_C6_generate_requires_image :
    ∀ (fs : FileSystem) (fn bc dn : String),
      fs fn = none →
      (BuildSpec.init fs fn none bc dn =
        .error (.valueError ("BuildSpec: target_image is not given and there is no "
          ++ "existing build spec file."))) ∧
      (∀ img, ∃ obj fs2,
        BuildSpec.init fs fn (some img) bc dn = .ok (obj, fs2) ∧
        fs2 fn = some ⟨SKAFFOLD_API_VERSION, "Config", [⟨some img, bc, dn⟩]⟩) := by
  intro fs fn bc dn h
  refine ⟨by simp [BuildSpec.init, h], ?_⟩
  intro img
  refine ⟨⟨fn, bc, some img, ⟨SKAFFOLD_API_VERSION, "Config", [⟨some img, bc, dn⟩]⟩⟩,
    fun f => if f = fn then
      some ⟨SKAFFOLD_API_VERSION, "Config", [⟨some img, bc, dn⟩]⟩
    else fs f, ?_, ?_⟩
  · simp [BuildSpec.init, h, generateDefault]
  · simp

/-- Witness for claim C6 on the empty file system. -/
theorem claim_C6_witness :
    (BuildSpec.init fsEmpty "build.yaml" none "ctx" "Dockerfile" =
      .error (.valueError ("BuildSpec: target_image is not given and there is no "
        ++ "existing build spec file."))) ∧
    (∃ obj fs2,
      BuildSpec.init fsEmpty "build.yaml" (some "img") "ctx" "Dockerfile" =
        .ok (obj, fs2) ∧
      fs2 "build.yaml" =
        some ⟨SKAFFOLD_API_VERSION, "Config", [⟨some "img", "ctx", "Dockerfile"⟩]⟩) :=
  ⟨(claim_C6_generate_requires_image fsEmpty "build.yaml" "ctx" "Dockerfile" rfl).1,
   (claim_C6_generate_requires_image fsEmpty "build.yaml" "ctx" "Dockerfile" rfl).2
     "img"⟩

/-- Claim C7: generating a fresh default build spec and then constructing a
second `BuildSpec` from the file it wrote yields the originally supplied
build context, whatever defaults the second construction uses. -/
theorem claim_C7_roundtrip :
    ∀ (fs : FileSystem) (fn img bc dn bc2 dn2 : String)
      (obj1 : BuildSpecObj) (fs1 : FileSystem)
      (obj2 : BuildSpecObj) (fs2 : FileSystem),
      fs fn = none →
      BuildSpec.init fs fn (some img) bc dn = .ok (obj1, fs1) →
      BuildSpec.init fs1 fn none bc2 dn2 = .ok (obj2, fs2) →
      obj2.build_context = bc := by
  intro fs fn img bc dn bc2 dn2 obj1 fs1 obj2 fs2 h h1 h2
  have e1 : BuildSpec.init fs fn (some img) bc dn =
      .ok (generateDefault fs fn img bc dn) := by
    simp [BuildSpec.init, h]
  rw [e1] at h1
  have hfs1 : fs1 = (generateDefault fs fn img bc dn).2 := by
    have := Except.ok.inj h1
    exact congrArg Prod.snd this.symm
  have hfile : fs1 fn =
      some ⟨SKAFFOLD_API_VERSION, "Config", [⟨some img, bc, dn⟩]⟩ := by
    rw [hfs1]
    simp [generateDefault]
  have e2 : BuildSpec.init fs1 fn none bc2 dn2 =
      .ok (⟨fn, bc, none,
        ⟨SKAFFOLD_API_VERSION, "Config", [⟨some img, bc, dn⟩]⟩⟩, fs1) := by
    simp [BuildSpec.init, hfile, readExistingBuildSpec]
  rw [e2] at h2
  injection h2 with hp
  injection hp with ho hf
  rw [← ho]

/-- The file written by generating the default spec at `build.yaml` from
image `img`, context `ctx` and dockerfile `Dockerfile`, used in the C7
witness. -/
def fsAfterGen : FileSystem :=
  fun f => if f = "build.yaml" then
    some ⟨SKAFFOLD_API_VERSION, "Config", [⟨some "img", "ctx", "Dockerfile"⟩]⟩
  else none

/-- Witness for claim C7 at concrete inputs: the reloaded build context is
the originally supplied `"ctx"`. -/
theorem claim_C7_witness :
    BuildSpecObj.build_context
      ⟨"build.yaml", "ctx", none,
        ⟨SKAFFOLD_API_VERSION, "Config", [⟨some "img", "ctx", "Dockerfile"⟩]⟩⟩ =
      "ctx" :=
  claim_C7_roundtrip fsEmpty "build.yaml" "img" "ctx" "Dockerfile" "other" "D2"
    ⟨"build.yaml", "ctx", some "img",
      ⟨SKAFFOLD_API_VERSION, "Config", [⟨some "img", "ctx", "Dockerfile"⟩]⟩⟩
    fsAfterGen
    ⟨"build.yaml", "ctx", none,
      ⟨SKAFFOLD_API_VERSION, "Config", [⟨some "img", "ctx", "Dockerfile"⟩]⟩⟩
    fsAfterGen rfl rfl rfl

/-- Claim C8, evaluated on the code: constructing from an existing
well-formed single-artifact file while also supplying a target image raises
`TypeError` (the warning's format string applies `%` to `self.target_image`
alone against two `%s` conversions), instead of succeeding with a warning as
documented. -/
theorem claim_C8_code_behavior :
    BuildSpec.init demoFS "build.yaml" (some "img") "bc" "df" =
      .error (.typeError formatTypeErrorMsg) := rfl

/-- Claim C10: on the load path, a successful construction keeps
`target_image` exactly as supplied by the caller (it is never overwritten
from the image recorded in the file), takes `build_context` and the
in-memory spec from the file, and leaves the file system untouched. -/
theorem claim_C10_target_image_frame :
    ∀ (fs : FileSystem) (fn : String) (file : BuildSpecFile)
      (ti : Option String) (bc dn : String) (obj : BuildSpecObj)
      (fs2 : FileSystem),
      fs fn = some file →
      BuildSpec.init fs fn ti bc dn = .ok (obj, fs2) →
      obj.target_image = ti ∧ obj.filename = fn ∧
        obj.buildspecContent = file ∧ fs2 = fs := by
  intro fs fn file ti bc dn obj fs2 h h2
  have e : BuildSpec.init fs fn ti bc dn =
      match readExistingBuildSpec fn ti bc file with
      | .error e => .error e
      | .ok o => .ok (o, fs) := by
    unfold BuildSpec.init
    rw [h]
  rw [e] at h2
  cases ti with
  | some t => simp [readExistingBuildSpec] at h2
  | none =>
    cases hart : file.artifacts with
    | nil => simp [readExistingBuildSpec, hart] at h2
    | cons a t =>
      cases t with
      | cons b t2 => simp [readExistingBuildSpec, hart] at h2
      | nil =>
        simp [readExistingBuildSpec, hart] at h2
        obtain ⟨hobj, hfs⟩ := h2
        rw [← hobj, ← hfs]
        exact ⟨rfl, rfl, rfl, rfl⟩

/-- Witness for claim C10: the concrete load of `demoFS` with the defaulted
`target_image = None` keeps it `None` and leaves the file system alone. -/
theorem claim_C10_witness :
    BuildSpecObj.target_image ⟨"build.yaml", "ctx", none, demoFile⟩ = none ∧
    BuildSpecObj.filename ⟨"build.yaml", "ctx", none, demoFile⟩ = "build.yaml" ∧
    BuildSpecObj.buildspecContent ⟨"build.yaml", "ctx", none, demoFile⟩ =
      demoFile ∧ demoFS = demoFS :=
  claim_C10_target_image_frame demoFS "build.yaml" demoFile none "bc" "df"
    ⟨"build.yaml", "ctx", none, demoFile⟩ demoFS rfl rfl

/-! ## HelloComponent claim -/

/-- Claim C9: when the caller supplies no `output_data` channel the
constructor binds a freshly minted channel of `Examples` artifacts with
exactly the splits `train` and `eval` (in that order), and a caller-supplied
channel is used unchanged. -/
theorem claim_C9_output_data_binding :
    (∀ i n, (HelloComponent.init i none n).output_data =
      as_channel [Examples "train", Examples "eval"]) ∧
    (∀ i n,
      ((HelloComponent.init i none n).output_data.artifacts.map
        ExamplesArtifact.split) = ["train", "eval"] ∧
      ∀ a ∈ (HelloComponent.init i none n).output_data.artifacts,
        a.typeName = "Examples") ∧
    (∀ i c n, (HelloComponent.init i (some c) n).output_data = c) := by
  refine ⟨fun _ _ => rfl, fun i n => ⟨rfl, ?_⟩, fun _ _ _ => rfl⟩
  intro a ha
  simp [HelloComponent.init, as_channel, Examples] at ha
  rcases ha with rfl | rfl <;> rfl
